import Mathlib

/-!
Verification of the PVWatts front-end script (`pvwatts.py`).

Shallow embedding conventions:
* Python floats are modelled as rationals (`ℚ`); `round(x, n)` is modelled
  by `pyRound n x` (round half up on rationals).
* Python dicts that the script builds or reads are modelled as association
  lists `List (String × α)` with lookup `dictGet`.
* The result-rendering block (lines 187-247 of the script) is modelled as
  pure functions into `Except RenderError _`: a Python
  `KeyError`/`TypeError`/`ValueError` raised on that path is an
  `Except.error`.  (Unequal hourly series lengths are modelled coarsely as
  an error; pandas' NaN index alignment is not modelled, and no claim
  exercises that case.)
-/

set_option linter.unusedVariables false

namespace PVWatts

/-- Round-to-`n`-decimals on rationals, modelling Python's `round(x, n)`. -/
def pyRound (n : ℕ) (q : ℚ) : ℚ := (round (q * (10 : ℚ) ^ n) : ℤ) / (10 : ℚ) ^ n

/-- Values appearing in the request-parameter dict: strings, floats, ints. -/
inductive PVal where
  | str (s : String)
  | num (q : ℚ)
  | int (n : ℤ)
deriving DecidableEq

/-- Association-list lookup, modelling Python dict access `d[k]` / `d.get(k)`. -/
def dictGet {α : Type} (d : List (String × α)) (k : String) : Option α :=
  (d.find? (fun p => p.1 == k)).map Prod.snd

/-- The PV configuration collected from the sidebar widgets
(lines 127-137 of the script). -/
structure SimulationRequest where
  peak_power_kw : ℚ
  panel_type : ℤ
  system_loss_pct : ℤ
  mounting : ℤ
  tilt : ℤ
  azimuth : ℤ
  inverter_ratio : ℚ
  interval : String
  dataset : String
  radius : ℤ
  inv : ℚ
deriving DecidableEq

/-- The bounds declared by the sidebar widgets (min/max of each
`number_input`/`slider`, option list of each `selectbox`). -/
def SimulationRequest.inBounds (r : SimulationRequest) : Prop :=
  1/10 ≤ r.peak_power_kw ∧ r.peak_power_kw ≤ 10000 ∧
  r.panel_type ∈ ([0, 1, 2] : List ℤ) ∧
  0 ≤ r.system_loss_pct ∧ r.system_loss_pct ≤ 30 ∧
  r.mounting ∈ ([0, 1, 2, 3, 4] : List ℤ) ∧
  0 ≤ r.tilt ∧ r.tilt ≤ 60 ∧
  0 ≤ r.azimuth ∧ r.azimuth ≤ 360 ∧
  1/10 ≤ r.inverter_ratio ∧ r.inverter_ratio ≤ 2 ∧
  r.interval ∈ (["monthly", "hourly"] : List String) ∧
  r.dataset ∈ (["nsrdb", "tmy2", "tmy3", "intl"] : List String) ∧
  1 ≤ r.radius ∧ r.radius ≤ 100 ∧
  96 ≤ r.inv ∧ r.inv ≤ 995/10

/-- The hard-coded API credential (line 159 of the script). -/
def api_key : String := "beHYbrG2eqslmF6pvTx5fOH4WsabCnB3hUedxanX"

/-- The request dict built before calling the estimation service
(lines 164-182 of the script), in source order. -/
def params (lat lon : ℚ) (r : SimulationRequest) : List (String × PVal) :=
  [("api_key", .str api_key),
   ("lat", .num lat),
   ("lon", .num lon),
   ("system_capacity", .num r.peak_power_kw),
   ("module_type", .int r.panel_type),
   ("losses", .int r.system_loss_pct),
   ("array_type", .int r.mounting),
   ("tilt", .int r.tilt),
   ("azimuth", .int r.azimuth),
   ("dc_ac_ratio", .num r.inverter_ratio),
   ("timeframe", .str r.interval),
   ("format", .str "json"),
   ("dataset", .str r.dataset),
   ("radius", .int r.radius),
   ("gcr", .num (2/5)),
   ("inv_eff", .num r.inv),
   ("use_wf_albedo", .int 1)]

/-- Default sidebar values, used as a concrete in-bounds request. -/
def defaultRequest : SimulationRequest :=
  { peak_power_kw := 5, panel_type := 0, system_loss_pct := 14,
    mounting := 0, tilt := 35, azimuth := 180, inverter_ratio := 1,
    interval := "monthly", dataset := "nsrdb", radius := 25, inv := 96 }

/-- JSON values in the response's `outputs` block: numbers or arrays of
numbers. -/
inductive JVal where
  | num (q : ℚ)
  | arr (l : List ℚ)
deriving DecidableEq

/-- The `outputs` dict of the response. -/
abbrev JDict := List (String × JVal)

/-- Python `d.get(k, v)` on a modelled JSON dict. -/
def jGetD (d : JDict) (k : String) (v : JVal) : JVal := (dictGet d k).getD v

/-- Exceptions the rendering block can raise. -/
inductive RenderError where
  | keyError (k : String)
  | typeError
  | valueError
deriving DecidableEq

/-- Using a JSON value where Python needs a number: an array raises
(`TypeError` on the arithmetic at lines 207-208). -/
def asNum : JVal → Except RenderError ℚ
  | .num q => .ok q
  | .arr _ => .error .typeError

/-- Using a JSON value where Python iterates it as a series: a bare number
raises (iteration/`pd.Series` of a scalar, modelled as one error kind). -/
def asArr : JVal → Except RenderError (List ℚ)
  | .arr l => .ok l
  | .num _ => .error .typeError

/-- The three headline metrics computed at lines 206-208. -/
structure Metrics where
  ac_annual : ℚ
  specific_yield : ℚ
  capacity_factor : ℚ
deriving DecidableEq

/-- The monthly table built at lines 217-221: month labels, AC output, and
per-month specific yield columns. -/
structure MonthlyDF where
  month : List String
  acOut : List ℚ
  specYield : List ℚ
deriving DecidableEq

/-- The hourly table built at lines 233-238: timestamp, AC (kWh),
DC (kWh), and specific-yield columns. -/
structure HourlyDF where
  timestamps : List ℤ
  acOut : List ℚ
  dcOut : List ℚ
  specYield : List ℚ
deriving DecidableEq

/-- `df.head(n)`: the first `n` rows of each column. -/
def HourlyDF.head (df : HourlyDF) (n : ℕ) : HourlyDF :=
  ⟨df.timestamps.take n, df.acOut.take n, df.dcOut.take n, df.specYield.take n⟩

/-- The fixed month-label list of line 218. -/
def month_names : List String :=
  ["Jan", "Feb", "Mar", "Apr", "May", "Jun", "Jul", "Aug", "Sep", "Oct", "Nov", "Dec"]

/-- Hours from 1970-01-01 00:00 to the fixed `datetime(2025, 1, 1)` start
of line 230 (time modelled as integer hours since 1970-01-01 00:00). -/
def start_time : ℤ := 482136

/-- The synthetic timestamp list of line 231: the fixed start plus one hour
per sample.  The station time-zone offset `tz` is read at line 229 but
never used; it is kept as an argument to make that explicit. -/
def timestamps (tz : ℤ) (n : ℕ) : List ℤ :=
  (List.range n).map (fun i : ℕ => start_time + (i : ℤ))

/-- Lines 206-208: `ac_annual` and `capacity_factor` default to 0 when
absent; specific yield is `round(ac_annual / peak, 2)`. -/
def metricsOf (outs : JDict) (peak : ℚ) : Except RenderError Metrics :=
  match asNum (jGetD outs "ac_annual" (.num 0)),
        asNum (jGetD outs "capacity_factor" (.num 0)) with
  | .error e, _ => .error e
  | .ok _, .error e => .error e
  | .ok a, .ok c => .ok ⟨a, pyRound 2 (a / peak), pyRound 2 c⟩

/-- Lines 216-221: `outputs["ac_monthly"]` is an unguarded dict access
(`KeyError` when absent); the table pairs the 12 fixed month labels with
the series and its per-month specific yield (`pd.DataFrame` demands equal
column lengths). -/
def monthlyOf (outs : JDict) (peak : ℚ) : Except RenderError MonthlyDF :=
  match dictGet outs "ac_monthly" with
  | none => .error (.keyError "ac_monthly")
  | some v =>
    match asArr v with
    | .error e => .error e
    | .ok acm =>
      if acm.length = 12 then
        .ok ⟨month_names, acm, acm.map (fun kwh => pyRound 2 (kwh / peak))⟩
      else .error .valueError

/-- Lines 227-241: `ac` and `dc` default to empty series; the table holds
the synthetic timestamps, both series divided by 1000, and the specific
yield computed from the raw AC series rounded to 3 decimals.  Returns the
48-row preview (line 241) together with the full table (line 243). -/
def hourlyOf (outs : JDict) (tz : ℤ) (peak : ℚ) :
    Except RenderError (HourlyDF × HourlyDF) :=
  match asArr (jGetD outs "ac" (.arr [])), asArr (jGetD outs "dc" (.arr [])) with
  | .error e, _ => .error e
  | .ok _, .error e => .error e
  | .ok ac, .ok dc =>
    if dc.length = ac.length then
      let df : HourlyDF :=
        ⟨timestamps tz ac.length, ac.map (fun x => x / 1000),
         dc.map (fun x => x / 1000), ac.map (fun x => pyRound 3 (x / peak))⟩
      .ok (df.head 48, df)
    else .error .valueError

/-- What the success branch renders. -/
inductive View where
  | monthlyView (df : MonthlyDF)
  | hourlyView (preview : HourlyDF) (full : HourlyDF)
  | noView
deriving DecidableEq

/-- Outcome of the rendering block for a transport-success response. -/
inductive RenderOutcome where
  | noOutputs
  | rendered (m : Metrics) (v : View)
deriving DecidableEq

/-- Lines 189-245: the rendering block for a transport-success response.
An empty `outputs` dict takes the `else` branch at line 244 ("no outputs")
before any metric is computed; otherwise the metrics are computed and the
view branches on the requested granularity. -/
def renderResponse (outs : JDict) (tz : ℤ) (interval : String) (peak : ℚ) :
    Except RenderError RenderOutcome :=
  if outs = [] then .ok .noOutputs
  else
    match metricsOf outs peak with
    | .error e => .error e
    | .ok m =>
      if interval = "monthly" then
        match monthlyOf outs peak with
        | .error e => .error e
        | .ok df => .ok (.rendered m (.monthlyView df))
      else if interval = "hourly" then
        match hourlyOf outs tz peak with
        | .error e => .error e
        | .ok pf => .ok (.rendered m (.hourlyView pf.1 pf.2))
      else .ok (.rendered m .noView)

/-- A decoded transport-success response body: `outputs` may be absent. -/
structure ApiResponse where
  outputs : Option JDict
  time_zone : ℤ
deriving DecidableEq

/-- Line 189: `data.get("outputs", {})`. -/
def getOutputs (r : ApiResponse) : JDict := r.outputs.getD []

/-- Rendering an entire decoded response. -/
def renderData (r : ApiResponse) (interval : String) (peak : ℚ) :
    Except RenderError RenderOutcome :=
  renderResponse (getOutputs r) r.time_zone interval peak

/-- One geocoding match as used by the script (lines 110-112). -/
structure GeoMatch where
  lat : ℚ
  lon : ℚ
  display_name : String
deriving DecidableEq

/-- Outcome of the address-mode location resolver. -/
inductive GeoOutcome where
  | resolved (lat lon : ℚ) (name : String)
  | notFound
  | decodeError
  | apiError (code : ℕ)
deriving DecidableEq

/-- Lines 104-120: on HTTP 200 with a decodable body, take the first match
if any, report "not found" on an empty list; report a decode error on an
undecodable body; report the status code otherwise. -/
def resolveAddress (status : ℕ) (body : Option (List GeoMatch)) : GeoOutcome :=
  if status = 200 then
    match body with
    | some (m :: _) => .resolved m.lat m.lon m.display_name
    | some [] => .notFound
    | none => .decodeError
  else .apiError status

/-- The `lat`/`lon` variables after the resolver ran: they stay `None`
(line 92) unless a match was taken. -/
def locationOf : GeoOutcome → Option ℚ × Option ℚ
  | .resolved la lo _ => (some la, some lo)
  | _ => (none, none)

/-- Line 162 guard: the simulation request is issued only when both `lat`
and `lon` are not `None`. -/
def canRunSimulation (lat lon : Option ℚ) : Bool := lat.isSome && lon.isSome

/-- The hard-coded password of line 23. -/
def the_password : String := "pushpower123"

/-- The two interactions that touch the authentication flag: submitting a
password (field shown only when unauthenticated, lines 21-25) and pressing
logout (button shown only when authenticated, lines 28-30). -/
inductive AuthEvent where
  | submitPassword (p : String)
  | logout
deriving DecidableEq

/-- Line 17-18: the flag starts out `False`. -/
def authInit : Bool := false

/-- Lines 21-30: the transition on the session's `authenticated` flag.
When unauthenticated, only a correct password flips the flag; the logout
button does not exist in that state.  When authenticated, no password
field exists and only logout clears the flag. -/
def authStep : Bool → AuthEvent → Bool
  | false, .submitPassword p => p == the_password
  | false, .logout => false
  | true, .submitPassword _ => true
  | true, .logout => false

/-- A concrete 12-month AC series used to instantiate theorems. -/
def acmW : List ℚ :=
  [500, 520, 600, 640, 700, 710, 720, 680, 600, 560, 500, 470]

/-- A concrete monthly-granularity outputs block. -/
def outsMonthlyW : JDict :=
  [("ac_annual", .num 6500), ("capacity_factor", .num 20),
   ("ac_monthly", .arr acmW)]

/-- A concrete hourly AC series. -/
def acHW : List ℚ := [1000, 2000, 0]

/-- A concrete hourly DC series. -/
def dcHW : List ℚ := [1200, 2200, 100]

/-- A concrete hourly-granularity outputs block. -/
def outsHourlyW : JDict :=
  [("ac_annual", .num 6500), ("capacity_factor", .num 20),
   ("ac", .arr acHW), ("dc", .arr dcHW)]

/-- A concrete non-empty outputs block holding none of the output keys. -/
def outsBareW : JDict := [("note", .num 1)]

/-- Metrics produced from `outsMonthlyW` at 5 kWp. -/
def metricsW : Metrics := ⟨6500, pyRound 2 (6500 / 5), pyRound 2 20⟩

/-- Monthly table produced from `outsMonthlyW` at 5 kWp. -/
def monthlyDfW : MonthlyDF :=
  ⟨month_names, acmW, acmW.map (fun kwh => pyRound 2 (kwh / 5))⟩

/-- Full hourly table produced from `outsHourlyW` at 5 kWp. -/
def hourlyDfW : HourlyDF :=
  ⟨timestamps 0 acHW.length, acHW.map (fun x => x / 1000),
   dcHW.map (fun x => x / 1000), acHW.map (fun x => pyRound 3 (x / 5))⟩

end PVWatts
namespace PVWatts

lemma metricsOf_ok {outs : JDict} {peak : ℚ} {m : Metrics}
    (h : metricsOf outs peak = .ok m) :
    m.specific_yield = pyRound 2 (m.ac_annual / peak) ∧
    asNum (jGetD outs "ac_annual" (.num 0)) = .ok m.ac_annual := by
  unfold metricsOf at h
  split at h
  · exact absurd h (by simp)
  · exact absurd h (by simp)
  next a c ha hc =>
    injection h with h2
    subst h2
    exact ⟨rfl, ha⟩

lemma monthlyOf_ok {outs : JDict} {peak : ℚ} {df : MonthlyDF}
    (h : monthlyOf outs peak = .ok df) :
    ∃ acm, dictGet outs "ac_monthly" = some (.arr acm) ∧ acm.length = 12 ∧
      df = ⟨month_names, acm, acm.map (fun kwh => pyRound 2 (kwh / peak))⟩ := by
  unfold monthlyOf at h
  split at h
  · simp_all
  next v hv =>
    split at h
    · simp_all
    next acm hacm =>
      split at h
      next hlen =>
        cases v with
        | num q => simp [asArr] at hacm
        | arr l =>
          simp only [asArr, Except.ok.injEq] at hacm
          subst hacm
          exact ⟨l, hv, hlen, by simpa using h.symm⟩
      next hlen => simp_all

lemma hourlyOf_ok {outs : JDict} {tz : ℤ} {peak : ℚ} {pre full : HourlyDF}
    (h : hourlyOf outs tz peak = .ok (pre, full)) :
    ∃ ac dc, asArr (jGetD outs "ac" (.arr [])) = .ok ac ∧
      asArr (jGetD outs "dc" (.arr [])) = .ok dc ∧
      dc.length = ac.length ∧
      full = ⟨timestamps tz ac.length, ac.map (fun x => x / 1000),
        dc.map (fun x => x / 1000), ac.map (fun x => pyRound 3 (x / peak))⟩ ∧
      pre = full.head 48 := by
  unfold hourlyOf at h
  split at h
  · simp_all
  · simp_all
  next ac dc hac hdc =>
    split at h
    next hlen =>
      refine ⟨ac, dc, hac, hdc, hlen, ?_, ?_⟩
      · simpa using congrArg Prod.snd (Except.ok.inj h).symm
      · have h2 := congrArg Prod.snd (Except.ok.inj h)
        have h1 := congrArg Prod.fst (Except.ok.inj h)
        simp at h1 h2
        rw [← h1, ← h2]
    next hlen => simp_all

lemma renderResponse_rendered {outs : JDict} {tz : ℤ} {interval : String}
    {peak : ℚ} {m : Metrics} {v : View}
    (h : renderResponse outs tz interval peak = .ok (.rendered m v)) :
    outs ≠ [] ∧ metricsOf outs peak = .ok m ∧
    (∀ df, v = .monthlyView df → interval = "monthly" ∧
      monthlyOf outs peak = .ok df) ∧
    (∀ pre full, v = .hourlyView pre full → interval = "hourly" ∧
      hourlyOf outs tz peak = .ok (pre, full)) := by
  unfold renderResponse at h
  split at h
  · simp_all
  next hne =>
    split at h
    · simp_all
    next m' hm' =>
      split_ifs at h with h1 h2
      · split at h
        · simp_all
        next df' hdf' =>
          simp only [Except.ok.injEq, RenderOutcome.rendered.injEq] at h
          obtain ⟨hm, hv⟩ := h
          subst hm
          refine ⟨hne, hm', ?_, ?_⟩
          · intro df hdf
            rw [← hv] at hdf
            cases hdf
            exact ⟨h1, hdf'⟩
          · intro pre full hpf
            rw [← hv] at hpf
            cases hpf
      · split at h
        · simp_all
        next pf hpf =>
          simp only [Except.ok.injEq, RenderOutcome.rendered.injEq] at h
          obtain ⟨hm, hv⟩ := h
          subst hm
          refine ⟨hne, hm', ?_, ?_⟩
          · intro df hdf
            rw [← hv] at hdf
            cases hdf
          · intro pre full hpf2
            rw [← hv] at hpf2
            cases hpf2
            exact ⟨h2, by simpa using hpf⟩
      · simp only [Except.ok.injEq, RenderOutcome.rendered.injEq] at h
        obtain ⟨hm, hv⟩ := h
        subst hm
        refine ⟨hne, hm', ?_, ?_⟩
        · intro df hdf
          rw [← hv] at hdf
          cases hdf
        · intro pre full hpf
          rw [← hv] at hpf
          cases hpf

end PVWatts
namespace PVWatts

/-- C1: for every in-bounds request, the request dict maps every declared
configuration field under the service's expected key name to the collected
input value, and holds the two fixed constants `gcr = 0.4` and
`use_wf_albedo = 1` unchanged. -/
theorem C1_params_complete (lat lon : ℚ) (r : SimulationRequest)
    (h : r.inBounds) :
    dictGet (params lat lon r) "api_key" = some (.str api_key) ∧
    dictGet (params lat lon r) "lat" = some (.num lat) ∧
    dictGet (params lat lon r) "lon" = some (.num lon) ∧
    dictGet (params lat lon r) "system_capacity" = some (.num r.peak_power_kw) ∧
    dictGet (params lat lon r) "module_type" = some (.int r.panel_type) ∧
    dictGet (params lat lon r) "losses" = some (.int r.system_loss_pct) ∧
    dictGet (params lat lon r) "array_type" = some (.int r.mounting) ∧
    dictGet (params lat lon r) "tilt" = some (.int r.tilt) ∧
    dictGet (params lat lon r) "azimuth" = some (.int r.azimuth) ∧
    dictGet (params lat lon r) "dc_ac_ratio" = some (.num r.inverter_ratio) ∧
    dictGet (params lat lon r) "timeframe" = some (.str r.interval) ∧
    dictGet (params lat lon r) "format" = some (.str "json") ∧
    dictGet (params lat lon r) "dataset" = some (.str r.dataset) ∧
    dictGet (params lat lon r) "radius" = some (.int r.radius) ∧
    dictGet (params lat lon r) "inv_eff" = some (.num r.inv) ∧
    dictGet (params lat lon r) "gcr" = some (.num (2/5)) ∧
    dictGet (params lat lon r) "use_wf_albedo" = some (.int 1) := by
  refine ⟨rfl, rfl, rfl, rfl, rfl, rfl, rfl, rfl, rfl, rfl, rfl, rfl, rfl,
    rfl, rfl, rfl, rfl⟩

/-- Witness for C1 at the sidebar's default values. -/
theorem C1_params_complete_witness :
    defaultRequest.inBounds ∧
    dictGet (params (515074/10000) (-1278/10000) defaultRequest) "gcr"
      = some (.num (2/5)) := by
  have hb : defaultRequest.inBounds := by
    unfold defaultRequest SimulationRequest.inBounds
    norm_num
  refine ⟨hb, ?_⟩
  exact (C1_params_complete (515074/10000) (-1278/10000) defaultRequest
    hb).2.2.2.2.2.2.2.2.2.2.2.2.2.2.2.1

/-- C2: whenever the success branch renders metrics, the displayed specific
yield is the annual AC output divided by the installed capacity rounded to
2 decimals; in the monthly table each month's specific yield is that
month's AC value divided by the capacity rounded to 2 decimals; and
6500 kWh at 5 kWp gives exactly 1300. -/
theorem C2_specific_yield (outs : JDict) (tz : ℤ) (interval : String)
    (peak : ℚ) (m : Metrics) (v : View) (hpeak : 0 < peak)
    (h : renderResponse outs tz interval peak = .ok (.rendered m v)) :
    m.specific_yield = pyRound 2 (m.ac_annual / peak) ∧
    (∀ df, v = .monthlyView df →
      df.specYield = df.acOut.map (fun kwh => pyRound 2 (kwh / peak))) ∧
    pyRound 2 ((6500 : ℚ) / 5) = 1300 := by
  obtain ⟨-, hm, hmon, -⟩ := renderResponse_rendered h
  refine ⟨(metricsOf_ok hm).1, ?_, ?_⟩
  · intro df hdf
    obtain ⟨-, hdf2⟩ := hmon df hdf
    obtain ⟨acm, -, -, hdfeq⟩ := monthlyOf_ok hdf2
    subst hdfeq
    rfl
  · norm_num [pyRound, round_eq]

/-- Witness for C2 on a concrete monthly response at 5 kWp. -/
theorem C2_specific_yield_witness :
    (0 : ℚ) < 5 ∧ pyRound 2 ((6500 : ℚ) / 5) = 1300 :=
  ⟨by norm_num,
   (C2_specific_yield outsMonthlyW 0 "monthly" 5 metricsW
      (.monthlyView monthlyDfW) (by norm_num) rfl).2.2⟩

/-- C3: for every hourly series length `n`, the generated timestamps are
exactly the fixed start instant plus `0..n-1` hours, strictly increasing
with consecutive entries one hour apart, and the station time-zone offset
has no effect on them. -/
theorem C3_timestamps_sequence (tz tz' : ℤ) (n : ℕ) :
    timestamps tz n = (List.range n).map (fun i : ℕ => start_time + (i : ℤ)) ∧
    (timestamps tz n).length = n ∧
    (∀ i, i < n → (timestamps tz n).getD i 0 = start_time + (i : ℤ)) ∧
    List.Chain' (fun a b => b = a + 1) (timestamps tz n) ∧
    List.Pairwise (· < ·) (timestamps tz n) ∧
    timestamps tz n = timestamps tz' n := by
  refine ⟨rfl, by simp [timestamps], ?_, ?_, ?_, rfl⟩
  · intro i hi
    have hlen : i < (timestamps tz n).length := by simpa [timestamps] using hi
    rw [List.getD_eq_getElem _ _ hlen]
    simp [timestamps]
  · rw [timestamps, List.chain'_map]
    cases n with
    | zero => simp
    | succ k =>
      refine (List.chain'_range_succ _ k).mpr (fun m hm => ?_)
      push_cast
      ring
  · rw [timestamps]
    refine (List.pairwise_lt_range n).map _ (fun a b hab => ?_)
    omega

/-- Witness for C3 at a length-3 series. -/
theorem C3_timestamps_sequence_witness :
    (timestamps 0 3).getD 1 0 = start_time + 1 :=
  (C3_timestamps_sequence 0 7 3).2.2.1 1 (by norm_num)

end PVWatts
namespace PVWatts

/-- C4: a success response whose outputs key is absent or maps to an empty
block renders the "no outputs" signal: the outcome carries no metrics and
no table, and no exception is raised, for any granularity and any
capacity (even zero). -/
theorem C4_empty_outputs (r : ApiResponse) (interval : String) (peak : ℚ)
    (h : r.outputs = none ∨ r.outputs = some []) :
    renderData r interval peak = .ok .noOutputs := by
  rcases h with h | h <;> simp [renderData, getOutputs, renderResponse, h]

/-- Witness for C4 at an absent outputs key and zero capacity. -/
theorem C4_empty_outputs_witness :
    renderData ⟨none, 0⟩ "monthly" 0 = .ok .noOutputs :=
  C4_empty_outputs ⟨none, 0⟩ "monthly" 0 (Or.inl rfl)

/-- C5: an address lookup returning HTTP 200 with zero matches leaves the
location unresolved (`lat` and `lon` both unset), and the line-162 guard
never lets the estimation call run while either coordinate is unset. -/
theorem C5_zero_matches :
    resolveAddress 200 (some []) = .notFound ∧
    locationOf (resolveAddress 200 (some [])) = (none, none) ∧
    (∀ lon, canRunSimulation none lon = false) ∧
    (∀ lat, canRunSimulation lat none = false) := by
  refine ⟨rfl, rfl, fun lon => rfl, fun lat => ?_⟩
  simp [canRunSimulation]

/-- C6: when the monthly branch renders a table from a series stored under
`ac_monthly`, the month labels are exactly Jan..Dec in order, the AC
column is the series itself (direct passthrough), and the series has the
required 12 entries. -/
theorem C6_month_labels (outs : JDict) (tz : ℤ) (peak : ℚ) (acm : List ℚ)
    (m : Metrics) (df : MonthlyDF)
    (hac : dictGet outs "ac_monthly" = some (.arr acm))
    (h : renderResponse outs tz "monthly" peak
      = .ok (.rendered m (.monthlyView df))) :
    df.month = ["Jan", "Feb", "Mar", "Apr", "May", "Jun", "Jul", "Aug",
      "Sep", "Oct", "Nov", "Dec"] ∧
    df.acOut = acm ∧
    df.month.length = 12 ∧ acm.length = 12 ∧
    df.specYield = acm.map (fun kwh => pyRound 2 (kwh / peak)) := by
  obtain ⟨-, -, hmon, -⟩ := renderResponse_rendered h
  obtain ⟨-, hdf⟩ := hmon df rfl
  obtain ⟨acm', hac', hlen, hdfeq⟩ := monthlyOf_ok hdf
  obtain rfl : acm' = acm := by simpa using hac'.symm.trans hac
  subst hdfeq
  exact ⟨rfl, rfl, rfl, hlen, rfl⟩

/-- Witness for C6 on a concrete monthly response. -/
theorem C6_month_labels_witness :
    monthlyDfW.month = ["Jan", "Feb", "Mar", "Apr", "May", "Jun", "Jul",
      "Aug", "Sep", "Oct", "Nov", "Dec"] :=
  (C6_month_labels outsMonthlyW 0 5 acmW metricsW monthlyDfW rfl rfl).1

/-- C7: the rendered hourly view is exactly the first 48 rows of the full
table (so at most 48 samples are previewed), while the exported table
contains every sample of the series. -/
theorem C7_hourly_preview (outs : JDict) (tz : ℤ) (peak : ℚ) (ac : List ℚ)
    (m : Metrics) (pre full : HourlyDF)
    (hac : dictGet outs "ac" = some (.arr ac))
    (h : renderResponse outs tz "hourly" peak
      = .ok (.rendered m (.hourlyView pre full))) :
    pre = full.head 48 ∧
    full.acOut = ac.map (fun x => x / 1000) ∧
    full.acOut.length = ac.length ∧
    full.timestamps.length = ac.length ∧
    full.specYield.length = ac.length ∧
    pre.acOut.length = min 48 ac.length := by
  obtain ⟨-, -, -, hhour⟩ := renderResponse_rendered h
  obtain ⟨-, hpf⟩ := hhour pre full rfl
  obtain ⟨ac', dc', hac', hdc', hlen, hfull, hpre⟩ := hourlyOf_ok hpf
  have hacr : asArr (jGetD outs "ac" (.arr [])) = .ok ac := by
    simp [jGetD, hac, asArr]
  obtain rfl : ac' = ac := by simpa using hac'.symm.trans hacr
  subst hfull
  subst hpre
  refine ⟨rfl, rfl, by simp, by simp [timestamps], by simp, ?_⟩
  simp [HourlyDF.head]

/-- Witness for C7 on a concrete 3-sample hourly response. -/
theorem C7_hourly_preview_witness :
    hourlyDfW.acOut = acHW.map (fun x => x / 1000) :=
  (C7_hourly_preview outsHourlyW 0 5 acHW metricsW (hourlyDfW.head 48)
    hourlyDfW rfl rfl).2.1

end PVWatts
namespace PVWatts

/-- C8: the session authentication is a two-state machine on the boolean
flag: it starts unauthenticated; from the unauthenticated state exactly
the hard-coded password authenticates and an incorrect one leaves the
state unchanged; from the authenticated state logout and only logout
returns to unauthenticated; the flag is a boolean, so no further state
exists. -/
theorem C8_auth_state_machine :
    authInit = false ∧
    (∀ p, authStep false (.submitPassword p) = true ↔ p = the_password) ∧
    (∀ p, p ≠ the_password → authStep false (.submitPassword p) = false) ∧
    (∀ e, authStep true e = false ↔ e = .logout) ∧
    (∀ s e, authStep s e = true ∨ authStep s e = false) := by
  refine ⟨rfl, fun p => ?_, fun p hp => ?_, fun e => ?_, fun s e => ?_⟩
  · simp [authStep]
  · simp [authStep, hp]
  · cases e <;> simp [authStep]
  · cases authStep s e <;> simp

/-- Witness for C8 at a concrete wrong password. -/
theorem C8_auth_state_machine_witness :
    authStep false (.submitPassword "letmein") = false :=
  C8_auth_state_machine.2.2.1 "letmein" (by decide)

/-- C9: in the hourly branch the displayed AC and DC columns are the raw
series divided by 1000 while the specific-yield column is computed from
the raw undivided AC series rounded to 3 decimals; hence each yield entry
is 1000 times the displayed AC entry divided by the capacity, which
differs from the displayed AC entry divided by the capacity (witnessed at
a raw AC value of 1000 and capacity 1). -/
theorem C9_hourly_unit_mismatch (outs : JDict) (tz : ℤ) (peak : ℚ)
    (ac dc : List ℚ) (m : Metrics) (pre full : HourlyDF)
    (hac : dictGet outs "ac" = some (.arr ac))
    (hdc : dictGet outs "dc" = some (.arr dc))
    (h : renderResponse outs tz "hourly" peak
      = .ok (.rendered m (.hourlyView pre full))) :
    full.acOut = ac.map (fun x => x / 1000) ∧
    full.dcOut = dc.map (fun x => x / 1000) ∧
    full.specYield = ac.map (fun x => pyRound 3 (x / peak)) ∧
    full.specYield = full.acOut.map (fun x => pyRound 3 ((1000 * x) / peak)) ∧
    pyRound 3 ((1000 : ℚ) / 1) ≠ pyRound 3 ((1000 / 1000) / 1) := by
  obtain ⟨-, -, -, hhour⟩ := renderResponse_rendered h
  obtain ⟨-, hpf⟩ := hhour pre full rfl
  obtain ⟨ac', dc', hac', hdc', hlen, hfull, hpre⟩ := hourlyOf_ok hpf
  have hacr : asArr (jGetD outs "ac" (.arr [])) = .ok ac := by
    simp [jGetD, hac, asArr]
  have hdcr : asArr (jGetD outs "dc" (.arr [])) = .ok dc := by
    simp [jGetD, hdc, asArr]
  obtain rfl : ac = ac' := by simpa using hacr.symm.trans hac'
  obtain rfl : dc = dc' := by simpa using hdcr.symm.trans hdc'
  subst hfull
  refine ⟨rfl, rfl, rfl, ?_, ?_⟩
  · show ac.map (fun x => pyRound 3 (x / peak))
      = (ac.map (fun x => x / 1000)).map (fun x => pyRound 3 ((1000 * x) / peak))
    rw [List.map_map]
    have hfun : ((fun x : ℚ => pyRound 3 (1000 * x / peak)) ∘ fun x : ℚ => x / 1000)
        = fun x : ℚ => pyRound 3 (x / peak) := by
      funext x
      simp only [Function.comp]
      congr 1
      ring
    rw [hfun]
  · norm_num [pyRound, round_eq]

/-- Witness for C9 on a concrete 3-sample hourly response. -/
theorem C9_hourly_unit_mismatch_witness :
    pyRound 3 ((1000 : ℚ) / 1) ≠ pyRound 3 ((1000 / 1000) / 1) :=
  (C9_hourly_unit_mismatch outsHourlyW 0 5 acHW dcHW metricsW
    (hourlyDfW.head 48) hourlyDfW rfl rfl rfl).2.2.2.2

/-- C10: with a non-empty outputs block lacking every output key, the
monthly branch raises a lookup error on the unguarded `ac_monthly` access
(so it does not reach the "no outputs" path), while the hourly branch
defaults `ac_annual` and `capacity_factor` to 0 and `ac`/`dc` to empty
series and renders without error. -/
theorem C10_unguarded_ac_monthly (outs : JDict) (tz : ℤ) (peak : ℚ)
    (hne : outs ≠ [])
    (ha : dictGet outs "ac_annual" = none)
    (hc : dictGet outs "capacity_factor" = none)
    (hm : dictGet outs "ac_monthly" = none)
    (hac : dictGet outs "ac" = none)
    (hdc : dictGet outs "dc" = none) :
    renderResponse outs tz "monthly" peak = .error (.keyError "ac_monthly") ∧
    renderResponse outs tz "monthly" peak ≠ .ok .noOutputs ∧
    renderResponse outs tz "hourly" peak =
      .ok (.rendered ⟨0, pyRound 2 (0 / peak), pyRound 2 0⟩
        (.hourlyView ⟨[], [], [], []⟩ ⟨[], [], [], []⟩)) := by
  have h1 : renderResponse outs tz "monthly" peak
      = .error (.keyError "ac_monthly") := by
    simp [renderResponse, hne, metricsOf, monthlyOf, jGetD, ha, hc, hm, asNum]
  refine ⟨h1, by simp [h1], ?_⟩
  simp [renderResponse, hne, metricsOf, hourlyOf, jGetD, ha, hc, hac, hdc,
    asNum, asArr, timestamps, HourlyDF.head]

/-- Witness for C10 on a one-key outputs block holding none of the output
keys. -/
theorem C10_unguarded_ac_monthly_witness :
    renderResponse outsBareW 0 "monthly" 5 = .error (.keyError "ac_monthly") :=
  (C10_unguarded_ac_monthly outsBareW 0 5 (by decide) rfl rfl rfl rfl rfl).1

end PVWatts
